import Mathlib

/-!
Verification of the static-file HTTP server in `src/server.py`.

The script defines `MyHTTPRequestHandler`, a subclass of CPython 3.11's
`http.server.SimpleHTTPRequestHandler`, overriding only `end_headers`
(which appends three CORS headers before terminating the header block)
and `log_message` (which prints `[<client address>] <formatted message>`),
plus a `main` that binds a `TCPServer` on port 8000 and handles `OSError`
with errno 48 specially.

The request-handling behaviour is therefore the inherited behaviour of
`SimpleHTTPRequestHandler` / `BaseHTTPRequestHandler` from CPython 3.11
(`http/server.py`), which we embed below together with the overrides.
Modelling boundaries, documented where they apply: time-dependent headers
(`Date`, `Last-Modified`) and conditional requests (`If-Modified-Since` /
304) are outside the embedding since they depend on the wall clock;
`urllib.parse.unquote` is embedded at the level of single-byte (ASCII)
percent escapes; requests are modelled as HTTP/1.1 requests.
-/

namespace WineServer

/-- Python `s.split(c, 1)[0]`: the characters before the first occurrence
of `c` (the whole list when `c` is absent). -/
def splitFirst (c : Char) : List Char → List Char
  | [] => []
  | x :: xs => if x = c then [] else x :: splitFirst c xs

/-- Auxiliary accumulator form of `splitOnChar`. -/
def splitOnCharAux (c : Char) : List Char → List Char → List (List Char)
  | [], acc => [acc.reverse]
  | x :: xs, acc =>
    if x = c then acc.reverse :: splitOnCharAux c xs []
    else splitOnCharAux c xs (x :: acc)

/-- Python `s.split(c)`: split a character list on every occurrence of `c`. -/
def splitOnChar (c : Char) (l : List Char) : List (List Char) :=
  splitOnCharAux c l []

/-- Python `s.rstrip()`: drop trailing whitespace. -/
def rstrip (l : List Char) : List Char :=
  (l.reverse.dropWhile Char.isWhitespace).reverse

/-- Value of a hexadecimal digit, `none` for other characters. -/
def hexVal (c : Char) : Option Nat :=
  if '0' ≤ c ∧ c ≤ '9' then some (c.toNat - '0'.toNat)
  else if 'a' ≤ c ∧ c ≤ 'f' then some (c.toNat - 'a'.toNat + 10)
  else if 'A' ≤ c ∧ c ≤ 'F' then some (c.toNat - 'A'.toNat + 10)
  else none

/-- `urllib.parse.unquote`, embedded at the level of single-byte percent
escapes: `%xy` with two hex digits decodes to the character with code
`16*x + y`; malformed escapes are left verbatim, as in CPython. -/
def unquoteList : List Char → List Char
  | [] => []
  | '%' :: a :: b :: rest =>
    match hexVal a, hexVal b with
    | some x, some y => Char.ofNat (16 * x + y) :: unquoteList rest
    | _, _ => '%' :: unquoteList (a :: b :: rest)
  | x :: xs => x :: unquoteList xs

/-- The fold inside `posixpath.normpath`: `.` and empty components are
dropped; `..` pops the previous component except at the root of an
absolute path (where it is dropped) or when nothing is left to pop on a
relative path (where it is kept). -/
def normpathComps (initialSlashes : Bool) (comps : List (List Char)) : List (List Char) :=
  comps.foldl
    (fun newComps comp =>
      if comp = [] ∨ comp = ['.'] then newComps
      else if comp ≠ ['.', '.'] ∨ (¬ initialSlashes ∧ newComps = []) ∨
              (newComps ≠ [] ∧ newComps.getLast? = some ['.', '.']) then
        newComps ++ [comp]
      else if newComps ≠ [] then newComps.dropLast
      else newComps)
    []

/-- `posixpath.normpath` on character lists. -/
def normpath (p : List Char) : List Char :=
  if p = [] then ['.']
  else
    let initialSlashes : Nat :=
      if p.take 1 = ['/'] then
        if p.take 2 = ['/', '/'] ∧ ¬ p.take 3 = ['/', '/', '/'] then 2 else 1
      else 0
    let newComps := normpathComps (initialSlashes ≠ 0) (splitOnChar '/' p)
    let out := List.replicate initialSlashes '/' ++ List.intercalate ['/'] newComps
    if out = [] then ['.'] else out

/-- `os.curdir` on posix. -/
def os_curdir : List Char := ['.']

/-- `os.pardir` on posix. -/
def os_pardir : List Char := ['.', '.']

/-- The per-word skip condition in `translate_path`'s join loop:
`os.path.dirname(word) or word in (os.curdir, os.pardir)`. On posix,
`os.path.dirname(word)` is truthy exactly when `word` contains a slash. -/
def skipWord (w : List Char) : Bool :=
  w.contains '/' || w == os_curdir || w == os_pardir

/-- A word that survives `translate_path`'s filtering: non-empty, not `.`
or `..`, and containing no slash. -/
def isGoodWord (w : List Char) : Bool :=
  !w.isEmpty && !(w == os_curdir) && !(w == os_pardir) && !(w.contains '/')

/-- The word list that `SimpleHTTPRequestHandler.translate_path` joins onto
the root directory: the request path with query and fragment removed,
percent-unquoted, normalised with `posixpath.normpath`, split on `/`,
with empty components removed (`filter(None, words)`) and components that
are `.`/`..`/contain a separator skipped by the join loop. -/
def translateWords (path : List Char) : List (List Char) :=
  let p1 := splitFirst '?' path
  let p2 := splitFirst '#' p1
  let p4 := normpath (unquoteList p2)
  ((splitOnChar '/' p4).filter (fun w => ¬ w = [])).filter (fun w => ¬ skipWord w = true)

/-- Whether `translate_path` records an explicit trailing slash:
`path.split('?',1)[0].split('#',1)[0].rstrip().endswith('/')`. -/
def hasTrailingSlash (path : List Char) : Bool :=
  (rstrip (splitFirst '#' (splitFirst '?' path))).getLast? == some '/'

/-- `posixpath.join(path, b)` for a single component `b`. -/
def joinOne (path b : List Char) : List Char :=
  if b.take 1 = ['/'] then b
  else if path = [] ∨ path.getLast? = some '/' then path ++ b
  else path ++ '/' :: b

/-- `SimpleHTTPRequestHandler.translate_path(self, path)` with
`self.directory = directory`: resolve a request path to a local filename
under the configured root directory. -/
def translate_path (directory path : String) : String :=
  let base := (translateWords path.data).foldl joinOne directory.data
  String.mk (if hasTrailingSlash path.data then base ++ ['/'] else base)

example : translate_path "/srv" "/data.json" = "/srv/data.json" := by decide
example : translate_path "/srv" "/../../etc/passwd" = "/srv/etc/passwd" := by decide
example : translate_path "/srv" "/%2e%2e/secret.txt" = "/srv/secret.txt" := by decide
example : translate_path "/srv" "/a/../b.csv?x=1" = "/srv/b.csv" := by decide
example : translate_path "/srv" "/sub/" = "/srv/sub/" := by decide

/-- Every word that survives `translate_path`'s filtering is a plain name:
non-empty, not `.` or `..`, and slash-free. -/
lemma translateWords_good (path : List Char) :
    (translateWords path).all isGoodWord = true := by
  rw [List.all_eq_true]
  intro w hw
  unfold translateWords at hw
  rw [List.mem_filter] at hw
  obtain ⟨hw1, hskip⟩ := hw
  rw [List.mem_filter] at hw1
  obtain ⟨-, hne⟩ := hw1
  rw [decide_eq_true_eq] at hne hskip
  rw [Bool.not_eq_true] at hskip
  unfold skipWord at hskip
  obtain ⟨⟨hc, hcur⟩, hpar⟩ :=
    Bool.or_eq_false_iff.mp hskip |>.imp_left Bool.or_eq_false_iff.mp
  have hemp : w.isEmpty = false := by
    cases w with
    | nil => exact absurd rfl hne
    | cons a t => rfl
  unfold isGoodWord
  rw [hemp, hc, hcur, hpar]
  rfl

/-- Joining a good word onto a path with `posixpath.join` extends the path. -/
lemma joinOne_extends (dir w : List Char) (h : isGoodWord w = true) :
    dir <+: joinOne dir w := by
  unfold joinOne
  have hns : ¬ w.take 1 = ['/'] := by
    intro htake
    have hmem : '/' ∈ w := by
      cases w with
      | nil => simp at htake
      | cons a t =>
        simp only [List.take, List.cons.injEq] at htake
        exact htake.1 ▸ List.mem_cons_self a t
    simp only [isGoodWord, Bool.and_eq_true, Bool.not_eq_true'] at h
    have hc := h.2
    simp [List.contains_iff_exists_mem_beq] at hc
    exact hc hmem
  rw [if_neg hns]
  by_cases hd : dir = [] ∨ dir.getLast? = some '/'
  · rw [if_pos hd]; exact ⟨w, rfl⟩
  · rw [if_neg hd]; exact ⟨'/' :: w, rfl⟩

/-- Folding good words onto a base path only ever extends it. -/
lemma foldl_joinOne_extends (ws : List (List Char)) (dir : List Char)
    (h : ws.all isGoodWord = true) : dir <+: ws.foldl joinOne dir := by
  induction ws generalizing dir with
  | nil => exact ⟨[], List.append_nil dir⟩
  | cons w ws ih =>
    rw [List.all_cons, Bool.and_eq_true] at h
    exact (joinOne_extends dir w h.1).trans (ih (joinOne dir w) h.2)

/-- C1. Directory-traversal safety: for every request path, each path
component that `translate_path` appends to the configured root directory
is a plain file or directory name (never `..`, `.`, empty, or containing
a separator), and the resolved local filename always extends the root
directory — so a `GET` lookup can never reach a file outside the root. -/
theorem get_lookup_never_escapes_root (directory path : String) :
    (translateWords path.data).all isGoodWord = true ∧
    directory.data <+: (translate_path directory path).data := by
  refine ⟨translateWords_good path.data, ?_⟩
  unfold translate_path
  have hbase := foldl_joinOne_extends (translateWords path.data) directory.data
    (translateWords_good path.data)
  by_cases hts : hasTrailingSlash path.data = true
  · simp only [hts, if_pos]
    exact hbase.trans ⟨['/'], rfl⟩
  · simp only [hts, if_neg, Bool.false_eq_true, not_false_eq_true]
    exact hbase

/-! ### Filesystem model -/

/-- A filesystem entry: a regular file with its contents and a readable
flag (an unreadable file makes `open(path, 'rb')` raise `OSError`), or a
directory with its `os.listdir` listing. Contents are ASCII-level strings
standing for the byte strings read from disk; symbolic links are not
modelled. -/
inductive Entry
  | file (contents : String) (readable : Bool)
  | dir (listing : List String)
  deriving DecidableEq

/-- The filesystem visible to the server, keyed by absolute local path. -/
def FileSystem := String → Option Entry

/-- `os.path.isdir`. -/
def isdir (fs : FileSystem) (p : String) : Bool :=
  match fs p with
  | some (Entry.dir _) => true
  | _ => false

/-- `os.path.isfile`. -/
def isfile (fs : FileSystem) (p : String) : Bool :=
  match fs p with
  | some (Entry.file _ _) => true
  | _ => false

/-- `open(path, 'rb')` followed by reading the whole file: `none` when the
path is missing, is a directory, or the file is unreadable (`OSError`). -/
def openRb (fs : FileSystem) (p : String) : Option String :=
  match fs p with
  | some (Entry.file c true) => some c
  | _ => none

/-- `posixpath.join` lifted to strings for a single extra component. -/
def posixJoinStr (path b : String) : String :=
  String.mk (joinOne path.data b.data)

/-! ### MIME type guessing -/

/-- `posixpath.splitext(p)[1]` on character lists: the extension of the
basename including its dot; leading dots of the basename never start an
extension. -/
def splitext_ext (l : List Char) : List Char :=
  let base := (l.reverse.takeWhile (fun c => ¬ c = '/')).reverse
  let afterDot := base.reverse.takeWhile (fun c => ¬ c = '.')
  if afterDot.length = base.length then []
  else
    let namePart := base.take (base.length - afterDot.length - 1)
    if namePart.all (fun c => c = '.') then [] else '.' :: afterDot.reverse

/-- `SimpleHTTPRequestHandler.extensions_map` in CPython 3.11 (consulted
before `mimetypes`). -/
def extensions_map : List (String × String) :=
  [(".gz", "application/gzip"), (".Z", "application/octet-stream"),
   (".bz2", "application/x-bzip2"), (".xz", "application/x-xz")]

/-- The entries of CPython 3.11's default `mimetypes` table relevant to
the file types this server exists to serve (plus common web types). -/
def mimetypes_types_map : List (String × String) :=
  [(".json", "application/json"), (".html", "text/html"), (".htm", "text/html"),
   (".css", "text/css"), (".csv", "text/csv"), (".js", "text/javascript"),
   (".txt", "text/plain"), (".png", "image/png"), (".jpg", "image/jpeg"),
   (".jpeg", "image/jpeg"), (".gif", "image/gif"), (".svg", "image/svg+xml"),
   (".pdf", "application/pdf"), (".xml", "text/xml"),
   (".ico", "image/vnd.microsoft.icon")]

/-- Lowercase a string character by character (`str.lower` at ASCII level). -/
def lowerStr (s : String) : String := String.mk (s.data.map Char.toLower)

/-- `mimetypes.guess_type`, embedded as extension lookup in the default
types table (exact extension first, then lowercased). -/
def mimetypes_guess_type (l : List Char) : Option String :=
  let ext := String.mk (splitext_ext l)
  match mimetypes_types_map.lookup ext with
  | some t => some t
  | none => mimetypes_types_map.lookup (lowerStr ext)

/-- `SimpleHTTPRequestHandler.guess_type`: consult `extensions_map` with
the exact then lowercased extension, then `mimetypes.guess_type`, then
fall back to `application/octet-stream`. -/
def guess_type (path : String) : String :=
  let ext := String.mk (splitext_ext path.data)
  match extensions_map.lookup ext with
  | some t => t
  | none =>
    match extensions_map.lookup (lowerStr ext) with
    | some t => t
    | none =>
      match mimetypes_guess_type path.data with
      | some t => t
      | none => "application/octet-stream"

example : guess_type "/srv/data.json" = "application/json" := by decide
example : guess_type "/srv/wine_manager.html" = "text/html" := by decide
example : guess_type "/srv/list.csv" = "text/csv" := by decide
example : guess_type "/srv/archive.bin" = "application/octet-stream" := by decide

/-! ### Responses, headers and logging -/

/-- An HTTP response as assembled by the handler: status line, headers in
the order they enter the header buffer, and the body bytes. -/
structure Response where
  status : Nat
  statusMessage : String
  headers : List (String × String)
  body : String
  deriving DecidableEq

/-- Handler output before the `[<client address>]` log prefix is applied:
the response, the messages passed to `log_message` in order, and whether
the filesystem was consulted. -/
structure CoreOut where
  response : Response
  logSummaries : List String
  fsTouched : Bool
  deriving DecidableEq

/-- Final handler output: response, emitted log lines, filesystem flag. -/
structure HandlerOutput where
  response : Response
  logLines : List String
  fsTouched : Bool
  deriving DecidableEq

/-- The three headers `MyHTTPRequestHandler.end_headers` appends (in
order) before closing the header block. -/
def corsHeaders : List (String × String) :=
  [("Access-Control-Allow-Origin", "*"),
   ("Access-Control-Allow-Methods", "GET, OPTIONS"),
   ("Access-Control-Allow-Headers", "*")]

/-- `self.version_string()`: `server_version + ' ' + sys_version`. -/
def server_version : String := "SimpleHTTP/0.6 Python/3.11"

/-- `DEFAULT_ERROR_CONTENT_TYPE`. -/
def error_content_type : String := "text/html;charset=utf-8"

/-- The `BaseHTTPRequestHandler.responses` table (short message, long
explanation), restricted to the status codes this server can produce. -/
def responses (code : Nat) : String × String :=
  if code = 200 then ("OK", "Request fulfilled, document follows")
  else if code = 301 then ("Moved Permanently", "Object moved permanently -- see URI list")
  else if code = 404 then ("Not Found", "Nothing matches the given URI")
  else if code = 501 then ("Not Implemented", "Server does not support this operation")
  else ("???", "???")

/-- `html.escape(s, quote=False)`: escape `&`, `<` and `>`. -/
def htmlEscapeChar (c : Char) : List Char :=
  if c = '&' then "&amp;".data
  else if c = '<' then "&lt;".data
  else if c = '>' then "&gt;".data
  else [c]

/-- `html.escape(s, quote=False)` on strings. -/
def htmlEscape (s : String) : String :=
  String.mk (s.data.map htmlEscapeChar).flatten

/-- `DEFAULT_ERROR_MESSAGE % vars`: the error page `send_error` emits. -/
def errorBody (code : Nat) (message explain : String) : String :=
  "<!DOCTYPE HTML>\n<html lang=\"en\">\n    <head>\n        <meta charset=\"utf-8\">\n        <title>Error response</title>\n    </head>\n    <body>\n        <h1>Error response</h1>\n        <p>Error code: " ++ toString code ++ "</p>\n        <p>Message: " ++ htmlEscape message ++ ".</p>\n        <p>Error code explanation: " ++ toString code ++ " - " ++ htmlEscape explain ++ ".</p>\n    </body>\n</html>\n"

/-- The request line, as `BaseHTTPRequestHandler` stores it for logging
(requests are modelled as HTTP/1.1). -/
def requestline (method path : String) : String :=
  method ++ " " ++ path ++ " HTTP/1.1"

/-- `log_request`'s message: `'"%s" %s %s' % (requestline, code, '-')`. -/
def logSummaryRequest (rl : String) (code : Nat) : String :=
  "\"" ++ rl ++ "\" " ++ toString code ++ " -"

/-- `log_error`'s message in `send_error`: `'code %d, message %s'`. -/
def logSummaryError (code : Nat) (message : String) : String :=
  "code " ++ toString code ++ ", message " ++ message

/-- `MyHTTPRequestHandler.log_message`: one printed line per call, of the
form `[<client address>] <formatted message>`. -/
def log_message (addr msg : String) : String :=
  "[" ++ addr ++ "] " ++ msg

/-- `BaseHTTPRequestHandler.send_error(code, message)`: logs the error
(via `log_error`) and the response (via `send_response` → `log_request`),
sends `Server`, `Connection: close`, and — when the code admits a body —
`Content-Type`/`Content-Length` headers plus the error page; the body is
omitted for `HEAD` requests. `end_headers` (the override) appends the
CORS headers. -/
def send_error_core (command rl : String) (code : Nat) (message? : Option String)
    (touched : Bool) : CoreOut :=
  let shortmsg := (responses code).1
  let longmsg := (responses code).2
  let message := message?.getD shortmsg
  let body := errorBody code message longmsg
  let hasBody : Bool := decide (200 ≤ code) && !(code == 204) && !(code == 205) && !(code == 304)
  { response :=
      { status := code
        statusMessage := message
        headers := [("Server", server_version), ("Connection", "close")] ++
          (if hasBody then
            [("Content-Type", error_content_type), ("Content-Length", toString body.length)]
          else []) ++ corsHeaders
        body := if ¬ command = "HEAD" ∧ hasBody = true then body else "" }
    logSummaries := [logSummaryError code message, logSummaryRequest rl code]
    fsTouched := touched }

/-! ### send_head, directory listings and request dispatch -/

/-- Characters after the first occurrence of `c` (empty when `c` is
absent), complementing `splitFirst`. -/
def afterFirst (c : Char) (l : List Char) : List Char :=
  l.drop ((splitFirst c l).length + 1)

/-- The `path` component `urllib.parse.urlsplit` extracts from a
scheme-less, netloc-less request target: everything before the query and
the fragment. -/
def urlsplit_path (url : String) : String :=
  String.mk (splitFirst '?' (splitFirst '#' url.data))

/-- The redirect target `send_head` builds for a directory requested
without a trailing slash: `urlunsplit` of the split request target with
`'/'` appended to the path component. -/
def redirect_url (url : String) : String :=
  let l := url.data
  let frag := afterFirst '#' l
  let rest := splitFirst '#' l
  let query := afterFirst '?' rest
  let p := splitFirst '?' rest
  String.mk (p ++ ['/'] ++ (if query = [] then [] else '?' :: query) ++
    (if frag = [] then [] else '#' :: frag))

/-- Whether a string's last character is `c` (`str.endswith` for a
one-character suffix). -/
def endsWithChar (p : String) (c : Char) : Bool :=
  p.data.getLast? == some c

/-- Percent-encode one character, `urllib.parse.quote` with the default
`safe='/'`, at the single-byte (ASCII) level. -/
def quoteChar (c : Char) : List Char :=
  if ('A' ≤ c ∧ c ≤ 'Z') ∨ ('a' ≤ c ∧ c ≤ 'z') ∨ ('0' ≤ c ∧ c ≤ '9') ∨
      c = '_' ∨ c = '.' ∨ c = '-' ∨ c = '~' ∨ c = '/' then [c]
  else
    let hexDigit := fun n => if n < 10 then Char.ofNat ('0'.toNat + n)
      else Char.ofNat ('A'.toNat + n - 10)
    ['%', hexDigit (c.toNat / 16 % 16), hexDigit (c.toNat % 16)]

/-- `urllib.parse.quote` with the default `safe='/'`. -/
def urlQuote (s : String) : String :=
  String.mk (s.data.map quoteChar).flatten

/-- Insert into a list sorted by lowercased key. -/
def insertByLower (x : String) : List String → List String
  | [] => [x]
  | y :: ys => if lowerStr x ≤ lowerStr y then x :: y :: ys else y :: insertByLower x ys

/-- `list.sort(key=lambda a: a.lower())`. -/
def sortByLower : List String → List String
  | [] => []
  | x :: xs => insertByLower x (sortByLower xs)

/-- One `<li>` line of the generated directory listing (directories get a
trailing slash on both link and display name; symbolic links are not
modelled). -/
def listItem (fs : FileSystem) (path name : String) : String :=
  let fullname := posixJoinStr path name
  let decorated := if isdir fs fullname then name ++ "/" else name
  "<li><a href=\"" ++ urlQuote decorated ++ "\">" ++ htmlEscape decorated ++ "</a></li>"

/-- The HTML page `list_directory` generates. -/
def listingBody (fs : FileSystem) (path displaypath : String) (names : List String) : String :=
  let title := "Directory listing for " ++ displaypath
  String.intercalate "\n"
    (["<!DOCTYPE HTML>", "<html lang=\"en\">", "<head>", "<meta charset=\"utf-8\">",
      "<title>" ++ title ++ "</title>\n</head>", "<body>\n<h1>" ++ title ++ "</h1>",
      "<hr>\n<ul>"] ++
      names.map (listItem fs path) ++
      ["</ul>\n<hr>\n</body>\n</html>\n"])

/-- `SimpleHTTPRequestHandler.list_directory`: list the directory sorted
by lowercased name and answer 200 with the generated page (returned as
the file object, so `HEAD` drops it), or 404 when `os.listdir` fails. -/
def list_directory_core (fs : FileSystem) (command rl reqPath path : String) :
    CoreOut × Option String :=
  match fs path with
  | some (Entry.dir names) =>
    let sorted := sortByLower names
    let displaypath := htmlEscape (String.mk (unquoteList reqPath.data))
    let body := listingBody fs path displaypath sorted
    let out : CoreOut :=
      { response :=
          { status := 200
            statusMessage := "OK"
            headers := [("Server", server_version),
                        ("Content-type", "text/html; charset=utf-8"),
                        ("Content-Length", toString body.length)] ++ corsHeaders
            body := "" }
        logSummaries := [logSummaryRequest rl 200]
        fsTouched := true }
    (out, some body)
  | _ => (send_error_core command rl 404 (some "No permission to list directory") true, none)

/-- The tail of `send_head` once the path to serve is fixed: guess the
content type, reject trailing-slash filenames with 404, open the file
(404 on `OSError`, including unreadable files), else answer 200 with
`Content-type` and `Content-Length` headers and hand the contents back
for `do_GET` to copy. -/
def send_file_core (fs : FileSystem) (command rl path : String) : CoreOut × Option String :=
  let ctype := guess_type path
  if endsWithChar path '/' then
    (send_error_core command rl 404 (some "File not found") true, none)
  else
    match openRb fs path with
    | none => (send_error_core command rl 404 (some "File not found") true, none)
    | some c =>
      let out : CoreOut :=
        { response :=
            { status := 200
              statusMessage := "OK"
              headers := [("Server", server_version), ("Content-type", ctype),
                          ("Content-Length", toString c.length)] ++ corsHeaders
              body := "" }
          logSummaries := [logSummaryRequest rl 200]
          fsTouched := true }
      (out, some c)

/-- `SimpleHTTPRequestHandler.send_head`: translate the request path; a
directory requested without a trailing slash is answered with a 301
redirect, one with a trailing slash is served via `index.html` /
`index.htm` or a generated listing; otherwise the translated path is
served as a file. -/
def send_head_core (fs : FileSystem) (directory command reqPath : String) :
    CoreOut × Option String :=
  let rl := requestline command reqPath
  let path := translate_path directory reqPath
  if isdir fs path then
    if ¬ endsWithChar (urlsplit_path reqPath) '/' then
      let out : CoreOut :=
        { response :=
            { status := 301
              statusMessage := "Moved Permanently"
              headers := [("Server", server_version), ("Location", redirect_url reqPath),
                          ("Content-Length", "0")] ++ corsHeaders
              body := "" }
          logSummaries := [logSummaryRequest rl 301]
          fsTouched := true }
      (out, none)
    else
      let idx1 := posixJoinStr path "index.html"
      let idx2 := posixJoinStr path "index.htm"
      if isfile fs idx1 then send_file_core fs command rl idx1
      else if isfile fs idx2 then send_file_core fs command rl idx2
      else list_directory_core fs command rl reqPath path
  else send_file_core fs command rl path

/-- Replace a `CoreOut`'s response body (the `copyfile` step of `do_GET`). -/
def setBody (o : CoreOut) (c : String) : CoreOut :=
  { o with response := { o.response with body := c } }

/-- `SimpleHTTPRequestHandler.do_GET`: `send_head`, then copy the returned
file object into the response body. -/
def do_GET_core (fs : FileSystem) (directory reqPath : String) : CoreOut :=
  match send_head_core fs directory "GET" reqPath with
  | (out, some c) => setBody out c
  | (out, none) => out

/-- `SimpleHTTPRequestHandler.do_HEAD`: `send_head` alone; the returned
file object is closed without being copied. -/
def do_HEAD_core (fs : FileSystem) (directory reqPath : String) : CoreOut :=
  (send_head_core fs directory "HEAD" reqPath).1

/-- A parsed HTTP request: method and request target. -/
structure Request where
  method : String
  path : String
  deriving DecidableEq

/-- `BaseHTTPRequestHandler.handle_one_request`'s dispatch: a `do_<name>`
method exists on `MyHTTPRequestHandler` exactly for `GET` and `HEAD`; any
other method — including `OPTIONS` and `POST` — is answered with
`send_error(501, "Unsupported method ('<name>')")` without touching the
filesystem. -/
def handle_core (fs : FileSystem) (directory : String) (req : Request) : CoreOut :=
  if req.method = "GET" then do_GET_core fs directory req.path
  else if req.method = "HEAD" then do_HEAD_core fs directory req.path
  else send_error_core req.method (requestline req.method req.path) 501
    (some ("Unsupported method ('" ++ req.method ++ "')")) false

/-- One full request handled by `MyHTTPRequestHandler`: the inherited
dispatch plus the overridden `log_message`, which prefixes every log
message with `[<client address>] `. -/
def handle_one_request (fs : FileSystem) (directory addr : String) (req : Request) :
    HandlerOutput :=
  let core := handle_core fs directory req
  { response := core.response
    logLines := core.logSummaries.map (log_message addr)
    fsTouched := core.fsTouched }

/-- The serving loop: requests are handled one at a time, each to
completion, and handling is total — an error response to one request
never prevents the next from being served. -/
def serve_requests (fs : FileSystem) (directory addr : String) (reqs : List Request) :
    List HandlerOutput :=
  reqs.map (handle_one_request fs directory addr)

/-! ### Process startup and shutdown (`main`) -/

/-- The fixed port constant in `server.py`. -/
def PORT : Nat := 8000

/-- The first line printed when binding fails with errno 48. -/
def portInUseMsg : String := "❌ Errore: La porta " ++ toString PORT ++ " è già in uso."

/-- The second line printed when binding fails with errno 48. -/
def portHintMsg : String := "💡 Prova a usare una porta diversa o chiudi l'altro processo."

/-- The errno `main` compares against; the source comment on the
comparison reads `# Address already in use` (this is `EADDRINUSE` on
macOS, where the hardcoded constant is correct). -/
def addrInUseErrno : Nat := 48

/-- The event that ends the `try` block of `main`: either constructing
`TCPServer` raised `OSError(errno)` at bind time, or `serve_forever` was
interrupted by CTRL+C (a `KeyboardInterrupt`). -/
inductive RunEvent
  | bindError (errno : Nat)
  | keyboardInterrupt
  deriving DecidableEq

/-- How the `main` call ends: a clean `sys.exit` with printed messages,
an `OSError` re-raised by the `except` clause, or an exception that no
handler matches escaping `main` (for this script: `KeyboardInterrupt`,
which makes the interpreter print a traceback and exit non-zero). -/
inductive MainOutcome
  | exited (code : Nat) (messages : List String)
  | osErrorPropagated (errno : Nat)
  | interruptPropagated
  deriving DecidableEq

/-- `main`'s error handling: `except OSError as e` matches only
`OSError`; errno 48 prints the port-conflict messages and exits with
status 1, any other errno is re-raised. A `KeyboardInterrupt` is not an
`OSError`, so no handler matches: it propagates out of `main` — no
farewell message is printed and the process exit status is non-zero. -/
def main : RunEvent → MainOutcome
  | RunEvent.bindError e =>
    if e = addrInUseErrno then MainOutcome.exited 1 [portInUseMsg, portHintMsg]
    else MainOutcome.osErrorPropagated e
  | RunEvent.keyboardInterrupt => MainOutcome.interruptPropagated

/-! ### A concrete filesystem for witnesses and counterexamples -/

/-- A small filesystem: a root directory with a wine-list JSON file, an
index page, an unreadable CSV file and a subdirectory. -/
def fsDemo : FileSystem := fun p =>
  if p = "/srv" then some (Entry.dir ["data.json", "index.html", "locked.csv", "cellar"])
  else if p = "/srv/data.json" then some (Entry.file "wine-list" true)
  else if p = "/srv/index.html" then some (Entry.file "<html>home</html>" true)
  else if p = "/srv/locked.csv" then some (Entry.file "secret" false)
  else if p = "/srv/cellar" then some (Entry.dir ["reds.csv"])
  else if p = "/srv/cellar/reds.csv" then some (Entry.file "barolo" true)
  else none

example : (handle_one_request fsDemo "/srv" "127.0.0.1" ⟨"GET", "/data.json"⟩).response.status
    = 200 := by decide
example : (handle_one_request fsDemo "/srv" "127.0.0.1" ⟨"GET", "/data.json"⟩).response.body
    = "wine-list" := by decide
example : (handle_one_request fsDemo "/srv" "127.0.0.1" ⟨"GET", "/missing.csv"⟩).response.status
    = 404 := by decide
example : (handle_one_request fsDemo "/srv" "127.0.0.1" ⟨"OPTIONS", "/data.json"⟩).response.status
    = 501 := by decide
example : (handle_one_request fsDemo "/srv" "127.0.0.1" ⟨"GET", "/locked.csv"⟩).response.status
    = 404 := by decide
example : (handle_one_request fsDemo "/srv" "127.0.0.1" ⟨"HEAD", "/data.json"⟩).response.body
    = "" := by decide

/-! ### Shared lemmas: every branch of the handler emits the CORS headers
and at least one log message -/

/-- The three CORS headers, with the exact values `end_headers` sends,
are all present in a header list. -/
def HasCors (hs : List (String × String)) : Prop :=
  ("Access-Control-Allow-Origin", "*") ∈ hs ∧
  ("Access-Control-Allow-Methods", "GET, OPTIONS") ∈ hs ∧
  ("Access-Control-Allow-Headers", "*") ∈ hs

lemma hasCors_corsHeaders : HasCors corsHeaders := by
  refine ⟨?_, ?_, ?_⟩ <;> simp [corsHeaders]

lemma hasCors_mono (s t : List (String × String)) (h : HasCors t) : HasCors (s ++ t) := by
  obtain ⟨h1, h2, h3⟩ := h
  exact ⟨List.mem_append_right s h1, List.mem_append_right s h2, List.mem_append_right s h3⟩

/-- A handler output that carries the CORS headers and logged at least
one message. -/
def GoodOut (o : CoreOut) : Prop :=
  HasCors o.response.headers ∧ ¬ o.logSummaries = []

lemma goodOut_send_error (command rl : String) (code : Nat) (message? : Option String)
    (touched : Bool) : GoodOut (send_error_core command rl code message? touched) := by
  constructor
  · exact hasCors_mono _ _ hasCors_corsHeaders
  · simp [send_error_core]

lemma goodOut_setBody (o : CoreOut) (c : String) (h : GoodOut o) : GoodOut (setBody o c) := h

lemma goodOut_send_file (fs : FileSystem) (command rl path : String) :
    GoodOut (send_file_core fs command rl path).1 := by
  unfold send_file_core
  by_cases hs : endsWithChar path '/' = true
  · simp only [hs, if_pos]
    exact goodOut_send_error command rl 404 (some "File not found") true
  · rw [if_neg (by simpa using hs)]
    cases hopen : openRb fs path with
    | none => exact goodOut_send_error command rl 404 (some "File not found") true
    | some c =>
      refine ⟨hasCors_mono _ _ hasCors_corsHeaders, by simp⟩

lemma goodOut_list_directory (fs : FileSystem) (command rl reqPath path : String) :
    GoodOut (list_directory_core fs command rl reqPath path).1 := by
  unfold list_directory_core
  cases hfs : fs path with
  | none => exact goodOut_send_error command rl 404 (some "No permission to list directory") true
  | some e =>
    cases e with
    | file c r => exact goodOut_send_error command rl 404 (some "No permission to list directory") true
    | dir names => exact ⟨hasCors_mono _ _ hasCors_corsHeaders, by simp⟩

lemma goodOut_send_head (fs : FileSystem) (directory command reqPath : String) :
    GoodOut (send_head_core fs directory command reqPath).1 := by
  unfold send_head_core
  by_cases hd : isdir fs (translate_path directory reqPath) = true
  · simp only [hd, if_pos]
    by_cases hs : endsWithChar (urlsplit_path reqPath) '/' = true
    · simp only [hs, not_true_eq_false, if_neg, if_false]
      by_cases h1 : isfile fs (posixJoinStr (translate_path directory reqPath) "index.html") = true
      · simp only [h1, if_pos]
        exact goodOut_send_file fs command _ _
      · rw [if_neg (by simpa using h1)]
        by_cases h2 : isfile fs (posixJoinStr (translate_path directory reqPath) "index.htm") = true
        · simp only [h2, if_pos]
          exact goodOut_send_file fs command _ _
        · rw [if_neg (by simpa using h2)]
          exact goodOut_list_directory fs command _ _ _
    · rw [if_pos (by simpa using hs)]
      exact ⟨hasCors_mono _ _ hasCors_corsHeaders, by simp⟩
  · rw [if_neg (by simpa using hd)]
    exact goodOut_send_file fs command _ _

lemma goodOut_handle_core (fs : FileSystem) (directory : String) (req : Request) :
    GoodOut (handle_core fs directory req) := by
  unfold handle_core
  by_cases hg : req.method = "GET"
  · simp only [hg, if_pos]
    unfold do_GET_core
    cases hsh : send_head_core fs directory "GET" req.path with
    | mk out f =>
      have hgood : GoodOut out := by
        have := goodOut_send_head fs directory "GET" req.path
        rw [hsh] at this
        exact this
      cases f with
      | none => exact hgood
      | some c => exact goodOut_setBody out c hgood
  · rw [if_neg hg]
    by_cases hh : req.method = "HEAD"
    · simp only [hh, if_pos]
      exact goodOut_send_head fs directory "HEAD" req.path
    · rw [if_neg hh]
      exact goodOut_send_error _ _ 501 _ false

/-- C2. Every HTTP response the handler produces — success, redirect,
listing or error, for any method — carries the three CORS headers with
exactly the values the `end_headers` override sends:
`Access-Control-Allow-Origin: *`, `Access-Control-Allow-Methods: GET,
OPTIONS`, and `Access-Control-Allow-Headers: *`. -/
theorem every_response_carries_cors_headers (fs : FileSystem) (directory addr : String)
    (req : Request) : HasCors (handle_one_request fs directory addr req).response.headers :=
  (goodOut_handle_core fs directory req).1

/-- C9 (amended). Every request emits at least one log line; every log
line has the form `[<client address>] <message>` produced by the
`log_message` override; and logging has no influence on the response:
the response is the same for every client address. (Successful requests
log exactly one line, but `send_error` logs an error line in addition to
the request line, so error responses emit two.) -/
theorem log_lines_form_and_frame (fs : FileSystem) (directory addr : String) (req : Request) :
    1 ≤ (handle_one_request fs directory addr req).logLines.length ∧
    (∀ l ∈ (handle_one_request fs directory addr req).logLines,
      ∃ m, l = log_message addr m) ∧
    ∀ addr2, (handle_one_request fs directory addr2 req).response =
      (handle_one_request fs directory addr req).response := by
  refine ⟨?_, ?_, fun addr2 => rfl⟩
  · have h := (goodOut_handle_core fs directory req).2
    simp only [handle_one_request, List.length_map]
    exact Nat.one_le_iff_ne_zero.mpr (fun hz => h (List.eq_nil_of_length_eq_zero hz))
  · intro l hl
    simp only [handle_one_request, List.mem_map] at hl
    obtain ⟨m, _, hm⟩ := hl
    exact ⟨m, hm.symm⟩

/-- Instantiation of the logging theorem at a concrete missing-file
request on `fsDemo`. -/
theorem log_lines_form_and_frame_witness :
    1 ≤ (handle_one_request fsDemo "/srv" "127.0.0.1" ⟨"GET", "/missing.csv"⟩).logLines.length ∧
    (handle_one_request fsDemo "/srv" "10.0.0.7" ⟨"GET", "/missing.csv"⟩).response =
      (handle_one_request fsDemo "/srv" "127.0.0.1" ⟨"GET", "/missing.csv"⟩).response :=
  ⟨(log_lines_form_and_frame fsDemo "/srv" "127.0.0.1" ⟨"GET", "/missing.csv"⟩).1,
   (log_lines_form_and_frame fsDemo "/srv" "127.0.0.1" ⟨"GET", "/missing.csv"⟩).2.2 "10.0.0.7"⟩

/-- C9 (counterexample to the claim as stated): a `GET` for a missing
file emits two log lines — `send_error` logs `code 404, message File not
found` and `send_response` then logs the request line — not exactly one. -/
theorem missing_file_logs_two_lines :
    (handle_one_request fsDemo "/srv" "127.0.0.1" ⟨"GET", "/missing.csv"⟩).logLines.length = 2 ∧
    ¬ (handle_one_request fsDemo "/srv" "127.0.0.1" ⟨"GET", "/missing.csv"⟩).logLines.length = 1 :=
  by decide

/-- C3. `MyHTTPRequestHandler` defines no `do_OPTIONS` (and inherits
none), even though its own `Access-Control-Allow-Methods` header
advertises `OPTIONS`: an `OPTIONS` request is answered by the base
handler's unsupported-method branch with status 501 and a non-empty
error body, not with status 200 and an empty body. It does perform no
filesystem access, and the CORS headers are present. -/
theorem options_request_answered_501 :
    (handle_one_request fsDemo "/srv" "127.0.0.1" ⟨"OPTIONS", "/data.json"⟩).response.status = 501 ∧
    ¬ (handle_one_request fsDemo "/srv" "127.0.0.1" ⟨"OPTIONS", "/data.json"⟩).response.status = 200 ∧
    ¬ (handle_one_request fsDemo "/srv" "127.0.0.1" ⟨"OPTIONS", "/data.json"⟩).response.body = "" ∧
    (handle_one_request fsDemo "/srv" "127.0.0.1" ⟨"OPTIONS", "/data.json"⟩).fsTouched = false := by
  refine ⟨rfl, by decide, by decide, rfl⟩

/-- C4. A `GET` for a path that resolves to an existing readable regular
file returns status 200, a body byte-identical to the file's contents,
and a `Content-type` header chosen by the file-extension mapping
`guess_type`. -/
theorem get_existing_file_serves_contents (fs : FileSystem) (directory addr p c : String)
    (hfile : fs (translate_path directory p) = some (Entry.file c true))
    (hslash : endsWithChar (translate_path directory p) '/' = false) :
    (handle_one_request fs directory addr ⟨"GET", p⟩).response.status = 200 ∧
    (handle_one_request fs directory addr ⟨"GET", p⟩).response.body = c ∧
    ("Content-type", guess_type (translate_path directory p)) ∈
      (handle_one_request fs directory addr ⟨"GET", p⟩).response.headers := by
  have hdir : isdir fs (translate_path directory p) = false := by
    simp [isdir, hfile]
  have hopen : openRb fs (translate_path directory p) = some c := by
    simp [openRb, hfile]
  simp [handle_one_request, handle_core, do_GET_core, send_head_core, hdir,
    send_file_core, hslash, hopen, setBody]

/-- Instantiation of the 200-serving theorem: `GET /data.json` on
`fsDemo` yields 200, the file's bytes, and
`Content-type: application/json`. -/
theorem get_existing_file_serves_contents_witness :
    fsDemo (translate_path "/srv" "/data.json") = some (Entry.file "wine-list" true) ∧
    endsWithChar (translate_path "/srv" "/data.json") '/' = false ∧
    (handle_one_request fsDemo "/srv" "127.0.0.1" ⟨"GET", "/data.json"⟩).response.status = 200 ∧
    (handle_one_request fsDemo "/srv" "127.0.0.1" ⟨"GET", "/data.json"⟩).response.body = "wine-list" ∧
    ("Content-type", "application/json") ∈
      (handle_one_request fsDemo "/srv" "127.0.0.1" ⟨"GET", "/data.json"⟩).response.headers := by
  have h := get_existing_file_serves_contents fsDemo "/srv" "127.0.0.1" "/data.json" "wine-list"
    (by decide) (by decide)
  have hg : guess_type (translate_path "/srv" "/data.json") = "application/json" := by decide
  refine ⟨by decide, by decide, h.1, h.2.1, ?_⟩
  rw [← hg]
  exact h.2.2

/-- C5. A `GET` for a path whose translation names nothing in the
filesystem returns status 404 with a non-empty error body, and the
serving loop goes on to handle every later request — the error is
local to the request, never fatal. -/
theorem get_missing_file_404 (fs : FileSystem) (directory addr p : String)
    (hmiss : fs (translate_path directory p) = none) :
    (handle_one_request fs directory addr ⟨"GET", p⟩).response.status = 404 ∧
    ¬ (handle_one_request fs directory addr ⟨"GET", p⟩).response.body = "" ∧
    ∀ rest, serve_requests fs directory addr (⟨"GET", p⟩ :: rest) =
      handle_one_request fs directory addr ⟨"GET", p⟩ :: serve_requests fs directory addr rest := by
  have hdir : isdir fs (translate_path directory p) = false := by
    simp [isdir, hmiss]
  have hopen : openRb fs (translate_path directory p) = none := by
    simp [openRb, hmiss]
  refine ⟨?_, ?_, fun rest => rfl⟩ <;>
  · by_cases hs : endsWithChar (translate_path directory p) '/' = true <;>
      simp [handle_one_request, handle_core, do_GET_core, send_head_core, hdir,
        send_file_core, hs, hopen, send_error_core, responses, errorBody] <;>
      decide

/-- Instantiation of the 404 theorem at `GET /missing.csv` on `fsDemo`. -/
theorem get_missing_file_404_witness :
    fsDemo (translate_path "/srv" "/missing.csv") = none ∧
    (handle_one_request fsDemo "/srv" "127.0.0.1" ⟨"GET", "/missing.csv"⟩).response.status = 404 ∧
    serve_requests fsDemo "/srv" "127.0.0.1" [⟨"GET", "/missing.csv"⟩, ⟨"GET", "/data.json"⟩] =
      handle_one_request fsDemo "/srv" "127.0.0.1" ⟨"GET", "/missing.csv"⟩ ::
        serve_requests fsDemo "/srv" "127.0.0.1" [⟨"GET", "/data.json"⟩] := by
  have h := get_missing_file_404 fsDemo "/srv" "127.0.0.1" "/missing.csv" (by decide)
  exact ⟨by decide, h.1, h.2.2 [⟨"GET", "/data.json"⟩]⟩

/-- C8 (counterexample to the claim as stated): a `GET` for an existing
but unreadable file is answered with status 404, not 500 — `send_head`
catches the `OSError` from `open` and calls
`send_error(404, "File not found")`. -/
theorem unreadable_file_gets_404_not_500 :
    (handle_one_request fsDemo "/srv" "127.0.0.1" ⟨"GET", "/locked.csv"⟩).response.status = 404 ∧
    ¬ (handle_one_request fsDemo "/srv" "127.0.0.1" ⟨"GET", "/locked.csv"⟩).response.status = 500 := by
  refine ⟨rfl, by decide⟩

/-- C8 (amended). A `GET` for a file that exists under the root but is
unreadable is answered with status 404 (the open failure is treated as
not-found), the error is logged, and the serving loop continues with the
next request — the failure is non-fatal. -/
theorem unreadable_file_404_nonfatal (fs : FileSystem) (directory addr p c : String)
    (hfile : fs (translate_path directory p) = some (Entry.file c false)) :
    (handle_one_request fs directory addr ⟨"GET", p⟩).response.status = 404 ∧
    ¬ (handle_one_request fs directory addr ⟨"GET", p⟩).logLines = [] ∧
    ∀ rest, serve_requests fs directory addr (⟨"GET", p⟩ :: rest) =
      handle_one_request fs directory addr ⟨"GET", p⟩ :: serve_requests fs directory addr rest := by
  have hdir : isdir fs (translate_path directory p) = false := by
    simp [isdir, hfile]
  have hopen : openRb fs (translate_path directory p) = none := by
    simp [openRb, hfile]
  refine ⟨?_, ?_, fun rest => rfl⟩ <;>
  · by_cases hs : endsWithChar (translate_path directory p) '/' = true <;>
      simp [handle_one_request, handle_core, do_GET_core, send_head_core, hdir,
        send_file_core, hs, hopen, send_error_core]

/-- Instantiation of the unreadable-file theorem at `GET /locked.csv` on
`fsDemo`. -/
theorem unreadable_file_404_nonfatal_witness :
    fsDemo (translate_path "/srv" "/locked.csv") = some (Entry.file "secret" false) ∧
    (handle_one_request fsDemo "/srv" "127.0.0.1" ⟨"GET", "/locked.csv"⟩).response.status = 404 ∧
    serve_requests fsDemo "/srv" "127.0.0.1" [⟨"GET", "/locked.csv"⟩, ⟨"GET", "/data.json"⟩] =
      handle_one_request fsDemo "/srv" "127.0.0.1" ⟨"GET", "/locked.csv"⟩ ::
        serve_requests fsDemo "/srv" "127.0.0.1" [⟨"GET", "/data.json"⟩] := by
  have h := unreadable_file_404_nonfatal fsDemo "/srv" "127.0.0.1" "/locked.csv" "secret" (by decide)
  exact ⟨by decide, h.1, h.2.2 [⟨"GET", "/data.json"⟩]⟩

/-- C10. For a path naming an existing readable regular file, a `HEAD`
request is served with status 200 and exactly the same headers as the
corresponding `GET` — including the `Content-type` chosen by extension
and the CORS headers — but with an empty body, while the `GET` body is
the file's contents; this although the advertised
`Access-Control-Allow-Methods` lists only GET and OPTIONS. -/
theorem head_matches_get_without_body (fs : FileSystem) (directory addr p c : String)
    (hfile : fs (translate_path directory p) = some (Entry.file c true))
    (hslash : endsWithChar (translate_path directory p) '/' = false) :
    (handle_one_request fs directory addr ⟨"HEAD", p⟩).response.status = 200 ∧
    (handle_one_request fs directory addr ⟨"HEAD", p⟩).response.headers =
      (handle_one_request fs directory addr ⟨"GET", p⟩).response.headers ∧
    ("Content-type", guess_type (translate_path directory p)) ∈
      (handle_one_request fs directory addr ⟨"HEAD", p⟩).response.headers ∧
    HasCors (handle_one_request fs directory addr ⟨"HEAD", p⟩).response.headers ∧
    (handle_one_request fs directory addr ⟨"HEAD", p⟩).response.body = "" ∧
    (handle_one_request fs directory addr ⟨"GET", p⟩).response.body = c := by
  have hdir : isdir fs (translate_path directory p) = false := by
    simp [isdir, hfile]
  have hopen : openRb fs (translate_path directory p) = some c := by
    simp [openRb, hfile]
  refine ⟨?_, ?_, ?_, ?_, ?_, ?_⟩ <;>
    simp [handle_one_request, handle_core, do_GET_core, do_HEAD_core, send_head_core, hdir,
      send_file_core, hslash, hopen, setBody, HasCors, corsHeaders]

/-- Instantiation of the HEAD theorem at `HEAD /data.json` on `fsDemo`. -/
theorem head_matches_get_without_body_witness :
    fsDemo (translate_path "/srv" "/data.json") = some (Entry.file "wine-list" true) ∧
    (handle_one_request fsDemo "/srv" "127.0.0.1" ⟨"HEAD", "/data.json"⟩).response.status = 200 ∧
    (handle_one_request fsDemo "/srv" "127.0.0.1" ⟨"HEAD", "/data.json"⟩).response.headers =
      (handle_one_request fsDemo "/srv" "127.0.0.1" ⟨"GET", "/data.json"⟩).response.headers ∧
    (handle_one_request fsDemo "/srv" "127.0.0.1" ⟨"HEAD", "/data.json"⟩).response.body = "" ∧
    (handle_one_request fsDemo "/srv" "127.0.0.1" ⟨"GET", "/data.json"⟩).response.body = "wine-list" := by
  have h := head_matches_get_without_body fsDemo "/srv" "127.0.0.1" "/data.json" "wine-list"
    (by decide) (by decide)
  exact ⟨by decide, h.1, h.2.1, h.2.2.2.2.1, h.2.2.2.2.2⟩

/-- C6. Bind-failure handling in `main`: when `TCPServer` raises
`OSError` with the errno the code identifies as "Address already in use"
(48), `main` prints messages that name the configured port and exits
with status 1 before serving any request; any `OSError` with a different
errno is re-raised unchanged. -/
theorem bind_failure_behavior (e : Nat) :
    (e = addrInUseErrno →
      main (RunEvent.bindError e) = MainOutcome.exited 1 [portInUseMsg, portHintMsg] ∧
      (toString PORT).data <:+: portInUseMsg.data) ∧
    (¬ e = addrInUseErrno → main (RunEvent.bindError e) = MainOutcome.osErrorPropagated e) := by
  constructor
  · intro he
    subst he
    exact ⟨by simp [main], by decide⟩
  · intro he
    simp [main, he]

/-- Instantiation of the bind-failure theorem at errno 48 (address in
use) and errno 13 (permission denied). -/
theorem bind_failure_behavior_witness :
    (main (RunEvent.bindError 48) = MainOutcome.exited 1 [portInUseMsg, portHintMsg] ∧
      (toString PORT).data <:+: portInUseMsg.data) ∧
    main (RunEvent.bindError 13) = MainOutcome.osErrorPropagated 13 :=
  ⟨(bind_failure_behavior 48).1 rfl, (bind_failure_behavior 13).2 (by decide)⟩

/-- C7 (what the code actually does on interrupt): `main` wraps the
serving loop in `try ... except OSError` only, so the
`KeyboardInterrupt` raised by CTRL+C propagates out of `main` uncaught —
the process does not print a farewell message and does not exit with
status 0. -/
theorem interrupt_propagates_uncaught :
    main RunEvent.keyboardInterrupt = MainOutcome.interruptPropagated ∧
    ∀ msgs, ¬ main RunEvent.keyboardInterrupt = MainOutcome.exited 0 msgs := by
  refine ⟨rfl, fun msgs h => ?_⟩
  simp [main] at h

end WineServer
